import Mathlib

/-!
Verification of the `android-auto-test` PC controller core against its
specification.  Python modules are shallowly embedded as Lean definitions:
dataclasses become structures, floats used only for comparison become `ℚ`,
Python `dict`s keyed by strings become association lists in insertion order,
and fallible code returns an explicit error alongside the new state.
-/

/-- `TestStatus` from `core/types.py`. -/
inductive TestStatus where
  | pending
  | running
  | passed
  | failed
  | skipped
  | error
  deriving DecidableEq, Repr

/-- `TestResult` from `core/types.py` (screenshots / logs / metadata are
string lists and a string map, as in the dataclass). -/
structure TestResult where
  name : String
  status : TestStatus
  duration_ms : ℚ := 0
  device_serial : String := ""
  error_message : Option String := none
  screenshots : List String := []
  logs : List String := []
  metadata : List (String × String) := []
  deriving DecidableEq, Repr

/-- `TestCaseInfo` from `automation/decorators.py`.  The `func` handler is a
Python coroutine; its observable behaviour is modelled separately (see
`HandlerOutcome` / `AttemptOutcome` below), so the record keeps only the
data fields. -/
structure TestCaseInfo where
  name : String
  tags : List String := []
  devices : Option (List String) := none
  timeout : ℚ := 300
  retry : Nat := 0
  priority : Int := 0
  description : String := ""
  deriving DecidableEq, Repr

/-- The sort key used by both the planner and the filter: Python
`sorted(tests, key=lambda t: t.priority, reverse=True)` orders by priority
descending, keeping the original order on ties (Timsort is stable). -/
def priorityGe (a b : TestCaseInfo) : Prop := b.priority ≤ a.priority

instance : DecidableRel priorityGe :=
  fun a b => inferInstanceAs (Decidable (b.priority ≤ a.priority))

instance : IsTotal TestCaseInfo priorityGe :=
  ⟨fun a b => le_total b.priority a.priority⟩

instance : IsTrans TestCaseInfo priorityGe :=
  ⟨fun _ _ _ h1 h2 => le_trans h2 h1⟩

/-- Stable descending-priority sort, the meaning of
`sorted(tests, key=lambda t: t.priority, reverse=True)` and of
`filtered.sort(key=lambda t: t.priority, reverse=True)`. -/
def sortByPriorityDesc (tests : List TestCaseInfo) : List TestCaseInfo :=
  List.insertionSort priorityGe tests

/-- `ExecutionPlan` from `scheduler/planner.py`; the `assignments` dict is an
association list in device-insertion order. -/
structure ExecutionPlan where
  assignments : List (String × List TestCaseInfo) := []
  unassigned : List TestCaseInfo := []
  deriving DecidableEq, Repr

namespace TestPlanner

/-- `assignments[device].append(test)`: the key is always present, so the
append happens at the unique matching entry. -/
def appendAt (m : List (String × List TestCaseInfo)) (k : String)
    (v : TestCaseInfo) : List (String × List TestCaseInfo) :=
  m.map (fun p => if p.1 = k then (p.1, p.2 ++ [v]) else p)

/-- The `for i, test in enumerate(sorted_tests)` loop of `_round_robin`. -/
def rrLoop (devices : List String) :
    Nat → List TestCaseInfo → List (String × List TestCaseInfo) →
    List (String × List TestCaseInfo)
  | _, [], m => m
  | i, t :: ts, m =>
    rrLoop devices (i + 1) ts
      (appendAt m ((devices.get? (i % devices.length)).getD "") t)

/-- `TestPlanner._round_robin`. -/
def roundRobin (tests : List TestCaseInfo) (devices : List String) :
    ExecutionPlan :=
  let init := devices.map (fun d => (d, ([] : List TestCaseInfo)))
  { assignments := rrLoop devices 0 (sortByPriorityDesc tests) init }

/-- One step of the `for test in tests` loop of `_capability_match`. -/
def capabilityStep (devices : List String)
    (acc : List (String × List TestCaseInfo) × List TestCaseInfo)
    (test : TestCaseInfo) :
    List (String × List TestCaseInfo) × List TestCaseInfo :=
  let lookupLen := fun (m : List (String × List TestCaseInfo)) (d : String) =>
    ((m.find? (fun p => p.1 = d)).map (fun p => p.2.length)).getD 0
  let leastLoaded := fun (cands : List String) =>
    (cands.foldl
      (fun best d =>
        match best with
        | none => some d
        | some b => if lookupLen acc.1 d < lookupLen acc.1 b then some d else best)
      none).getD ""
  match test.devices with
  | some req =>
    if req ≠ [] then
      let matched := devices.filter (fun d => req.contains d)
      if matched ≠ [] then
        (appendAt acc.1 (leastLoaded matched) test, acc.2)
      else
        (acc.1, acc.2 ++ [test])
    else
      (appendAt acc.1 (leastLoaded devices) test, acc.2)
  | none => (appendAt acc.1 (leastLoaded devices) test, acc.2)

/-- `TestPlanner._capability_match` (the `capabilities` argument is unused by
the source body, so it does not appear). -/
def capabilityMatch (tests : List TestCaseInfo) (devices : List String) :
    ExecutionPlan :=
  let init := devices.map (fun d => (d, ([] : List TestCaseInfo)))
  let r := tests.foldl (capabilityStep devices) (init, [])
  { assignments := r.1, unassigned := r.2 }

/-- `TestPlanner._single_device`. -/
def singleDevice (tests : List TestCaseInfo) (devices : List String) :
    ExecutionPlan :=
  { assignments := [((devices.get? 0).getD "", tests)] }

/-- `TestPlanner._duplicate_all`. -/
def duplicateAll (tests : List TestCaseInfo) (devices : List String) :
    ExecutionPlan :=
  { assignments := devices.map (fun d => (d, tests)) }

/-- `TestPlanner.plan`: empty device list short-circuits, then the strategy
string dispatches, unknown strategies falling back to round-robin. -/
def plan (tests : List TestCaseInfo) (device_serials : List String)
    (strategy : String := "round_robin") : ExecutionPlan :=
  if device_serials = [] then { unassigned := tests }
  else if strategy = "round_robin" then roundRobin tests device_serials
  else if strategy = "capability_match" then capabilityMatch tests device_serials
  else if strategy = "single_device" then singleDevice tests device_serials
  else if strategy = "duplicate" then duplicateAll tests device_serials
  else roundRobin tests device_serials

end TestPlanner

/-- The three tests of end-to-end scenario 1: `t1 pri=0`. -/
def t1 : TestCaseInfo := { name := "t1", priority := 0 }

/-- `t2 pri=10`. -/
def t2 : TestCaseInfo := { name := "t2", priority := 10 }

/-- `t3 pri=5`. -/
def t3 : TestCaseInfo := { name := "t3", priority := 5 }

/-- C1 counterexample: on devices `["A","B"]` with tests
`[t1 pri=0, t2 pri=10, t3 pri=5]`, `TestPlanner.plan` does NOT return the
claimed plan `A:[t2,t3], B:[t1]`.  The sorted order is `[t2,t3,t1]` and the
round-robin deal alternates devices, so `t3` lands on `B` and `t1` back on
`A`. -/
theorem c1_counterexample :
    TestPlanner.plan [t1, t2, t3] ["A", "B"] "round_robin" ≠
      { assignments := [("A", [t2, t3]), ("B", [t1])], unassigned := [] } := by
  decide

/-- C1 amended: the round-robin plan for devices `["A","B"]` and tests
`[t1 pri=0, t2 pri=10, t3 pri=5]` is `A:[t2,t1], B:[t3]`, with no
unassigned tests. -/
theorem c1_round_robin_plan :
    TestPlanner.plan [t1, t2, t3] ["A", "B"] "round_robin" =
      { assignments := [("A", [t2, t1]), ("B", [t3])], unassigned := [] } := by
  decide

/-!  §4.B Wire message codec — `device/protocol.py`.  A frame is the
structural (JSON-equivalent) form of a text frame: each envelope field is
either present with a value or absent.  `params`, `result`, `error` and
`metadata` carry arbitrary JSON values. -/

/-- A JSON value, for the dynamically-typed envelope payload fields. -/
inductive Json where
  | null
  | bool (b : Bool)
  | num (q : ℚ)
  | str (s : String)
  | arr (xs : List Json)
  | obj (fields : List (String × Json))

/-- The structural form of a text frame: the envelope's known fields, each
optionally present.  Unknown fields are dropped by `from_json`'s
`__dataclass_fields__` filter, so they never reach the constructor and are
not represented. -/
structure Frame where
  id : Option String := none
  type : Option String := none
  method : Option String := none
  params : Option Json := none
  result : Option Json := none
  error : Option Json := none
  metadata : Option Json := none
  timestamp : Option Int := none

/-- `Message` from `device/protocol.py`.  `id` and `type` are always
strings, `timestamp` always an int; the remaining fields are optional. -/
structure Message where
  id : String
  type : String := "request"
  method : Option String := none
  params : Option Json := none
  result : Option Json := none
  error : Option Json := none
  metadata : Option Json := none
  timestamp : Int := 0

/-- `Message.to_json`: serialise, omitting fields whose value is `None`.
`id`, `type` and `timestamp` are never `None`, so they are always
emitted. -/
def Message.to_json (m : Message) : Frame :=
  { id := some m.id
    type := some m.type
    method := m.method
    params := m.params
    result := m.result
    error := m.error
    metadata := m.metadata
    timestamp := some m.timestamp }

/-- `Message.from_json` composed with the dataclass defaults and
`__post_init__`: a missing `id` is replaced by a fresh uuid (`freshId`), a
missing `type` by `"request"`, a missing `timestamp` by `0`; then
`__post_init__` replaces a zero timestamp with the current wall-clock
milliseconds (`now`).  No field is ever rejected. -/
def Message.from_json (freshId : String) (now : Int) (f : Frame) : Message :=
  let ts := f.timestamp.getD 0
  { id := f.id.getD freshId
    type := f.type.getD "request"
    method := f.method
    params := f.params
    result := f.result
    error := f.error
    metadata := f.metadata
    timestamp := if ts = 0 then now else ts }

/-- Truncation toward zero, Python's `int()` on a float. -/
def pyInt (q : ℚ) : Int := if 0 ≤ q then ⌊q⌋ else ⌈q⌉

/-- `Message.request`: fresh id, `metadata.timeout` in milliseconds when a
(truthy) timeout is given, timestamp from `__post_init__`. -/
def Message.request (freshId : String) (now : Int) (method : String)
    (params : Option Json := none) (timeout : Option ℚ := none) : Message :=
  let metadata :=
    match timeout with
    | some t =>
      if t ≠ 0 then some (Json.obj [("timeout", Json.num (pyInt (t * 1000) : ℚ))])
      else none
    | none => none
  { id := freshId, type := "request", method := some method, params := params
    metadata := metadata, timestamp := if (0 : Int) = 0 then now else 0 }

/-- C3 counterexample: a frame that lacks the `id` field (here
`{type:"response", timestamp:5}`) is NOT rejected by `Message.from_json`:
decoding succeeds, fabricating the fresh uuid `"fresh-uuid"` as the missing
id.  Likewise a frame lacking `type` decodes with the default
`"request"`. -/
theorem c3_counterexample :
    Message.from_json "fresh-uuid" 99 { type := some "response", timestamp := some 5 } =
      { id := "fresh-uuid", type := "response", timestamp := 5 } ∧
    Message.from_json "fresh-uuid" 99 { id := some "abc", timestamp := some 5 } =
      { id := "abc", type := "request", timestamp := 5 } := by
  constructor <;> rfl

/-- C3 amended: `Message.from_json` never rejects a frame for a missing
field; a frame without `id` decodes with the fresh uuid as its id, and a
frame without `type` decodes with type `"request"` — the defaults are
fabricated rather than the frame being refused. -/
theorem c3_missing_fields_defaulted (freshId : String) (now : Int) (f : Frame)
    (hid : f.id = none) (hty : f.type = none) :
    (Message.from_json freshId now f).id = freshId ∧
    (Message.from_json freshId now f).type = "request" := by
  simp [Message.from_json, hid, hty]

/-- C3 witness for `c3_missing_fields_defaulted` at the empty frame. -/
theorem c3_missing_fields_defaulted_witness :
    (Frame.id {} = none ∧ Frame.type {} = none) ∧
    (Message.from_json "u" 7 {}).id = "u" ∧
    (Message.from_json "u" 7 {}).type = "request" :=
  ⟨⟨rfl, rfl⟩, c3_missing_fields_defaulted "u" 7 {} rfl rfl⟩

/-- C7 confirmed: for every message `m` (whose timestamp is the nonzero
value `__post_init__` guarantees), decoding the encoding of `m` yields `m`
back: all eight envelope fields are preserved by `to_json` then
`from_json`. -/
theorem c7_roundtrip (freshId : String) (now : Int) (m : Message)
    (h : m.timestamp ≠ 0) :
    Message.from_json freshId now (Message.to_json m) = m := by
  cases m with
  | mk id ty me pa re er md ts =>
    have hts : ts ≠ 0 := h
    simp [Message.to_json, Message.from_json, hts]

/-- C7 witness: the round trip at a concrete message with every field
populated. -/
theorem c7_roundtrip_witness :
    (5 : Int) ≠ 0 ∧
    Message.from_json "f" 7 (Message.to_json
      { id := "x1", type := "response", method := some "device.info",
        params := some (Json.obj [("a", Json.num 1)]),
        result := some (Json.str "ok"),
        error := some (Json.obj [("code", Json.num 3), ("message", Json.str "m")]),
        metadata := some (Json.obj [("timeout", Json.num 1000)]),
        timestamp := 5 }) =
      { id := "x1", type := "response", method := some "device.info",
        params := some (Json.obj [("a", Json.num 1)]),
        result := some (Json.str "ok"),
        error := some (Json.obj [("code", Json.num 3), ("message", Json.str "m")]),
        metadata := some (Json.obj [("timeout", Json.num 1000)]),
        timestamp := 5 } :=
  ⟨by decide, c7_roundtrip "f" 7 _ (by decide)⟩

/-!  §4.H Runner — `automation/runner.py` and `automation/decorators.py`.
A Python handler coroutine is modelled by its observable termination
behaviour per invocation. -/

/-- How one invocation of a raw (undecorated) test handler body ends. -/
inductive HandlerOutcome where
  | completes
  | assertionError (msg : String)
  | otherError (kind msg : String)
  deriving DecidableEq, Repr

/-- What `await asyncio.wait_for(test.func(device), timeout)` does on one
attempt, from the runner's point of view. -/
inductive AttemptOutcome where
  | returnsResult (r : TestResult)
  | returnsOther
  | timesOut
  | raises (kind msg : String)
  deriving DecidableEq, Repr

/-- `TestCaseInfo` stores the raw function (`decorators.py`: `func=func`),
so when the runner awaits `test.func(device)` an `AssertionError` from the
handler body is just another exception: `_run_single` has branches only for
`asyncio.TimeoutError` and the generic `except Exception`, whose message is
`f"{type(e).__name__}: {e}"`. -/
def rawFuncAttempt : HandlerOutcome → AttemptOutcome
  | .completes => .returnsOther
  | .assertionError msg => .raises "AssertionError" msg
  | .otherError kind msg => .raises kind msg

/-- The `try/except` body of one attempt in `TestRunner._run_single`
(the float rendering of the timeout in the message is approximated by the
rational's `toString`). -/
def attemptResult (test : TestCaseInfo) (serial : String) :
    AttemptOutcome → TestResult
  | .returnsResult r => { r with device_serial := serial }
  | .returnsOther =>
    { name := test.name, status := .passed, device_serial := serial }
  | .timesOut =>
    { name := test.name, status := .error, device_serial := serial,
      error_message := some ("Test timed out after " ++ toString test.timeout ++ "s") }
  | .raises kind msg =>
    { name := test.name, status := .error, device_serial := serial,
      error_message := some (kind ++ ": " ++ msg) }

namespace TestRunner

/-- The `for attempt in range(test.retry + 1)` loop of `_run_single`:
`behavior k` is the outcome of attempt `k`; the loop breaks as soon as an
attempt's result is `passed`.  Returns the final result together with the
number of handler invocations made. -/
def runSingleGo (test : TestCaseInfo) (serial : String)
    (behavior : Nat → AttemptOutcome) : Nat → Nat → TestResult × Nat
  | attempt, 0 => (attemptResult test serial (behavior attempt), attempt + 1)
  | attempt, remaining + 1 =>
    let r := attemptResult test serial (behavior attempt)
    if r.status = TestStatus.passed then (r, attempt + 1)
    else runSingleGo test serial behavior (attempt + 1) remaining

/-- `TestRunner._run_single` (the `last_result or ...` fallback is dead for
a non-negative retry count, since the loop always makes at least one
attempt). -/
def runSingle (test : TestCaseInfo) (serial : String)
    (behavior : Nat → AttemptOutcome) : TestResult × Nat :=
  runSingleGo test serial behavior 0 test.retry

end TestRunner

/-- The `wrapper` closure built by the `test_case` decorator
(`decorators.py`): completion → `passed`, `AssertionError` → `failed` with
the assertion's message, any other exception → `error` with
`"kind: msg"`.  `dur` is the measured wall-clock duration. -/
def test_case_wrapper (test_name : String) (dur : ℚ) :
    HandlerOutcome → TestResult
  | .completes => { name := test_name, status := .passed, duration_ms := dur }
  | .assertionError msg =>
    { name := test_name, status := .failed, duration_ms := dur,
      error_message := some msg }
  | .otherError kind msg =>
    { name := test_name, status := .error, duration_ms := dur,
      error_message := some (kind ++ ": " ++ msg) }

/-- C2: a registered test whose handler raises `AssertionError("boom")`
gets runner status `error` with message `"AssertionError: boom"` — not the
`failed`-with-`"boom"` result that the decorator's own wrapper (the
documented mapping) produces for the same handler behaviour.  The registry
stores the raw function, so the wrapper's assertion branch never runs. -/
theorem c2_assertion_status_divergence :
    (TestRunner.runSingle { name := "t_assert" } "dev"
        (fun _ => rawFuncAttempt (HandlerOutcome.assertionError "boom"))).1.status =
      TestStatus.error ∧
    (TestRunner.runSingle { name := "t_assert" } "dev"
        (fun _ => rawFuncAttempt (HandlerOutcome.assertionError "boom"))).1.error_message =
      some "AssertionError: boom" ∧
    (test_case_wrapper "t_assert" 0 (HandlerOutcome.assertionError "boom")).status =
      TestStatus.failed ∧
    (test_case_wrapper "t_assert" 0 (HandlerOutcome.assertionError "boom")).error_message =
      some "boom" := by
  refine ⟨rfl, rfl, rfl, rfl⟩

/-- Helper for C8: when no attempt in the window passes, the loop runs to
the last remaining attempt and returns its result. -/
theorem runSingleGo_no_pass (test : TestCaseInfo) (serial : String)
    (behavior : Nat → AttemptOutcome) :
    ∀ remaining attempt,
      (∀ k, attempt ≤ k → k ≤ attempt + remaining →
        (attemptResult test serial (behavior k)).status ≠ TestStatus.passed) →
      TestRunner.runSingleGo test serial behavior attempt remaining =
        (attemptResult test serial (behavior (attempt + remaining)),
          attempt + remaining + 1) := by
  intro remaining
  induction remaining with
  | zero => intro attempt _; simp [TestRunner.runSingleGo]
  | succ n ih =>
    intro attempt h
    have h0 := h attempt le_rfl (Nat.le_add_right _ _)
    have := ih (attempt + 1)
      (fun k hk1 hk2 => h k (le_trans (Nat.le_succ attempt) hk1) (by omega))
    simp only [TestRunner.runSingleGo, if_neg h0, this]
    have heq : attempt + 1 + n = attempt + (n + 1) := by omega
    rw [heq]

/-- Helper for C8: the loop stops at the first passing attempt. -/
theorem runSingleGo_first_pass (test : TestCaseInfo) (serial : String)
    (behavior : Nat → AttemptOutcome) :
    ∀ remaining attempt k, attempt ≤ k → k ≤ attempt + remaining →
      (attemptResult test serial (behavior k)).status = TestStatus.passed →
      (∀ j, attempt ≤ j → j < k →
        (attemptResult test serial (behavior j)).status ≠ TestStatus.passed) →
      TestRunner.runSingleGo test serial behavior attempt remaining =
        (attemptResult test serial (behavior k), k + 1) := by
  intro remaining
  induction remaining with
  | zero =>
    intro attempt k h1 h2 _ _
    have hk : k = attempt := by omega
    subst hk
    simp [TestRunner.runSingleGo]
  | succ n ih =>
    intro attempt k h1 h2 hpass hfirst
    by_cases hk : k = attempt
    · subst hk
      simp [TestRunner.runSingleGo, if_pos hpass]
    · have hlt : attempt < k := lt_of_le_of_ne h1 (Ne.symm hk)
      have h0 := hfirst attempt le_rfl hlt
      have := ih (attempt + 1) k hlt (by omega) hpass
        (fun j hj1 hj2 => hfirst j (by omega) hj2)
      simp only [TestRunner.runSingleGo, if_neg h0, this]

/-- C8 confirmed: for a test with retry count `r` — (a) if no attempt up to
`r` passes, the handler is invoked exactly `r+1` times and the last
attempt's result is returned; (b) if attempt `k ≤ r` is the first to pass,
no further attempts are made (exactly `k+1` invocations) and that passing
result is returned; (c) with `r = 0` the handler runs exactly once. -/
theorem c8_retry_semantics (test : TestCaseInfo) (serial : String)
    (behavior : Nat → AttemptOutcome) :
    ((∀ k, k ≤ test.retry →
        (attemptResult test serial (behavior k)).status ≠ TestStatus.passed) →
      TestRunner.runSingle test serial behavior =
        (attemptResult test serial (behavior test.retry), test.retry + 1)) ∧
    (∀ k, k ≤ test.retry →
      (attemptResult test serial (behavior k)).status = TestStatus.passed →
      (∀ j, j < k →
        (attemptResult test serial (behavior j)).status ≠ TestStatus.passed) →
      TestRunner.runSingle test serial behavior =
        (attemptResult test serial (behavior k), k + 1)) ∧
    (test.retry = 0 → (TestRunner.runSingle test serial behavior).2 = 1) := by
  refine ⟨?_, ?_, ?_⟩
  · intro h
    have := runSingleGo_no_pass test serial behavior test.retry 0
      (fun k _ hk2 => h k (by omega))
    simpa [TestRunner.runSingle] using this
  · intro k hk hpass hfirst
    have := runSingleGo_first_pass test serial behavior test.retry 0 k
      (Nat.zero_le k) (by omega) hpass (fun j _ hj => hfirst j hj)
    simpa [TestRunner.runSingle] using this
  · intro h
    simp [TestRunner.runSingle, h, TestRunner.runSingleGo]

/-- C8 witness: retry count 2, handler raising on attempts 0 and 1 and
completing on attempt 2 — exactly three invocations, final result passed. -/
theorem c8_retry_semantics_witness :
    TestRunner.runSingle { name := "t", retry := 2 } "d"
      (fun k => if k < 2 then AttemptOutcome.raises "ValueError" "x"
                else AttemptOutcome.returnsOther) =
      ({ name := "t", status := TestStatus.passed, device_serial := "d" }, 3) := by
  have h := (c8_retry_semantics { name := "t", retry := 2 } "d"
    (fun k => if k < 2 then AttemptOutcome.raises "ValueError" "x"
              else AttemptOutcome.returnsOther)).2.1 2 (by decide) rfl ?_
  · exact h
  · intro j hj
    interval_cases j <;> decide

/-!  §4.D Device client — `device/client.py`.  The observable state of a
`DeviceClient` for the request/response path: the keys of the pending
table (`self._pending`; a slot is present iff its future is unresolved)
and the frames written to the control channel. -/

/-- Pending-table keys plus the control-channel write log. -/
structure ClientState where
  pending : List String := []
  written : List Frame := []

/-- Dict-key removal, the effect of `self._pending.pop(id, None)` on the
key set (dict keys are unique, so filtering is exact). -/
def removeId (pending : List String) (id : String) : List String :=
  pending.filter (fun k => !(k == id))

/-- The errors `send` can raise. `timeout` carries the request's method and
the effective timeout, the data interpolated into
`TimeoutError(f"Request {method} timed out after {timeout}s")`. -/
inductive ClientError where
  | timeout (method : String) (t : ℚ)
  | connectionClosed
  deriving DecidableEq, Repr

namespace DeviceClient

/-- The first half of `DeviceClient.send`: build `Message.request`, install
the completion slot under the fresh id, write the frame to the control
channel.  Returns the new state and the request id. -/
def sendRequest (freshId : String) (now : Int) (st : ClientState)
    (method : String) (params : Option Json) (timeout : ℚ) :
    ClientState × String :=
  let msg := Message.request freshId now method params (some timeout)
  ({ pending := st.pending ++ [msg.id],
     written := st.written ++ [msg.to_json] }, msg.id)

/-- The `except asyncio.TimeoutError` branch of `send`: pop the slot and
raise a timeout error.  Nothing is written to the control channel — in
particular no cancel frame. -/
def sendTimeout (st : ClientState) (id : String) (method : String)
    (t : ℚ) : ClientState × ClientError :=
  ({ st with pending := removeId st.pending id }, ClientError.timeout method t)

/-- One delivery step of `DeviceClient._listen_control`: decode the raw
frame; for a `response`, pop the matching slot and resolve it (the second
component names the notified slot and its payload); anything else — or a
response whose id has no live slot — is discarded. -/
def listenControlStep (freshId : String) (now : Int) (st : ClientState)
    (raw : Frame) : ClientState × Option (String × Message) :=
  let msg := Message.from_json freshId now raw
  if msg.type = "response" then
    if st.pending.contains msg.id then
      ({ st with pending := removeId st.pending msg.id }, some (msg.id, msg))
    else (st, none)
  else (st, none)

end DeviceClient

/-- After removal an id is never among the pending keys. -/
theorem removeId_contains (pending : List String) (id : String) :
    (removeId pending id).contains id = false := by
  rw [Bool.eq_false_iff]
  intro hc
  have hm : id ∈ removeId pending id := by
    have := List.elem_iff.mp hc
    simpa using this
  have := List.of_mem_filter hm
  simp at this

/-- C6 confirmed: when a `send`'s deadline elapses, the pending slot for
its request id is removed, a timeout error (carrying the method and the
effective timeout) is raised, nothing beyond the original request frame is
ever written to the control channel (no cancel frame), and a response with
that id arriving afterwards is discarded: the listener changes nothing and
notifies no slot. -/
theorem c6_send_timeout (st : ClientState) (freshId freshId2 : String)
    (now now2 : Int) (method : String) (params : Option Json) (t : ℚ)
    (late : Frame) (hlid : late.id = some freshId)
    (hlty : late.type = some "response") :
    ((DeviceClient.sendTimeout
        (DeviceClient.sendRequest freshId now st method params t).1
        (DeviceClient.sendRequest freshId now st method params t).2
        method t).1.pending.contains
        (DeviceClient.sendRequest freshId now st method params t).2 = false) ∧
    ((DeviceClient.sendTimeout
        (DeviceClient.sendRequest freshId now st method params t).1
        (DeviceClient.sendRequest freshId now st method params t).2
        method t).2 = ClientError.timeout method t) ∧
    ((DeviceClient.sendTimeout
        (DeviceClient.sendRequest freshId now st method params t).1
        (DeviceClient.sendRequest freshId now st method params t).2
        method t).1.written =
      st.written ++ [(Message.request freshId now method params (some t)).to_json]) ∧
    ((Message.request freshId now method params (some t)).to_json.type =
      some "request") ∧
    (DeviceClient.listenControlStep freshId2 now2
        (DeviceClient.sendTimeout
          (DeviceClient.sendRequest freshId now st method params t).1
          (DeviceClient.sendRequest freshId now st method params t).2
          method t).1
        late =
      ((DeviceClient.sendTimeout
          (DeviceClient.sendRequest freshId now st method params t).1
          (DeviceClient.sendRequest freshId now st method params t).2
          method t).1, none)) := by
  have hid : (DeviceClient.sendRequest freshId now st method params t).2 = freshId := rfl
  refine ⟨?_, rfl, rfl, rfl, ?_⟩
  · rw [hid]
    exact removeId_contains _ _
  · have hmsg_id : (Message.from_json freshId2 now2 late).id = freshId := by
      simp [Message.from_json, hlid]
    have hmsg_ty : (Message.from_json freshId2 now2 late).type = "response" := by
      simp [Message.from_json, hlty]
    have hcontains : ((DeviceClient.sendTimeout
        (DeviceClient.sendRequest freshId now st method params t).1
        (DeviceClient.sendRequest freshId now st method params t).2
        method t).1.pending.contains (Message.from_json freshId2 now2 late).id)
        = false := by
      rw [hmsg_id, hid]
      exact removeId_contains _ _
    have hnm : (Message.from_json freshId2 now2 late).id ∉
        (DeviceClient.sendTimeout
          (DeviceClient.sendRequest freshId now st method params t).1
          (DeviceClient.sendRequest freshId now st method params t).2
          method t).1.pending := by
      simpa using hcontains
    simp [DeviceClient.listenControlStep, hmsg_ty, hnm]

/-- C6 witness: the late-response conjunct of `c6_send_timeout` at a
concrete request (`device.info`, 3 s) and a concrete late response frame. -/
theorem c6_send_timeout_witness :
    DeviceClient.listenControlStep "id2" 2
      (DeviceClient.sendTimeout
        (DeviceClient.sendRequest "id1" 1 {} "device.info" none 3).1
        (DeviceClient.sendRequest "id1" 1 {} "device.info" none 3).2
        "device.info" 3).1
      { id := some "id1", type := some "response", timestamp := some 9 } =
    ((DeviceClient.sendTimeout
        (DeviceClient.sendRequest "id1" 1 {} "device.info" none 3).1
        (DeviceClient.sendRequest "id1" 1 {} "device.info" none 3).2
        "device.info" 3).1, none) :=
  (c6_send_timeout {} "id1" "id2" 1 2 "device.info" none 3
    { id := some "id1", type := some "response", timestamp := some 9 }
    rfl rfl).2.2.2.2

/-!  §4.E Device manager — `device/manager.py`.  The manager state is the
client map (serial → `is_connected`), the port map, the monotonic port
counter and — shared with the ADB adapter — the set of forwards installed
on the host.  The ADB world is an environment telling which `adb forward`
invocations and which `DeviceClient.connect()` calls succeed. -/

/-- Environment: device config ports and the outcome of external calls. -/
structure ConnectEnv where
  control_port : Nat
  binary_port : Nat
  event_port : Nat
  forwardOk : String → Nat → Nat → Bool
  clientConnectOk : String → Bool

/-- Manager-owned state plus the installed-forwards ledger. -/
structure ManagerState where
  clients : List (String × Bool) := []
  port_map : List (String × Nat) := []
  nextLocalPort : Nat := 28900
  forwards : List (String × Nat) := []
  deriving Repr

/-- The errors `DeviceManager.connect` can raise. -/
inductive ConnectOutcome where
  | deviceOffline (serial : String)
  | connectionFailed (serial : String)
  deriving DecidableEq, Repr

namespace DeviceManager

/-- Association-list update for the client / port maps (dict assignment). -/
def setKey {β : Type} (m : List (String × β)) (k : String) (v : β) :
    List (String × β) :=
  if m.any (fun p => p.1 == k) then
    m.map (fun p => if p.1 == k then (k, v) else p)
  else m ++ [(k, v)]

/-- The `for offset, remote_port in enumerate([...])` loop of `connect`:
install forwards one by one; on the first failing `adb forward` stop with
the forwards installed so far still in place. -/
def installForwards (env : ConnectEnv) (serial : String) (localPort : Nat) :
    List Nat → Nat → ManagerState → ManagerState × Bool
  | [], _, st => (st, true)
  | remote :: rest, offset, st =>
    if env.forwardOk serial (localPort + offset) remote then
      installForwards env serial localPort rest (offset + 1)
        { st with forwards := st.forwards ++ [(serial, localPort + offset)] }
    else (st, false)

/-- `DeviceManager.connect`: return an existing connected client, else
advance the port counter by 3, install the three forwards, connect the
client, then register it.  Failures raise with the state as it stands —
the source has no rollback or release path. -/
def connect (env : ConnectEnv) (st : ManagerState) (serial : String) :
    ManagerState × Option ConnectOutcome :=
  if ((st.clients.find? (fun p => p.1 == serial)).map (fun p => p.2)).getD false then
    (st, none)
  else
    let localPort := st.nextLocalPort
    let st1 := { st with nextLocalPort := st.nextLocalPort + 3 }
    let fw := installForwards env serial localPort
      [env.control_port, env.binary_port, env.event_port] 0 st1
    if fw.2 = false then (fw.1, some (ConnectOutcome.deviceOffline serial))
    else if env.clientConnectOk serial = false then
      (fw.1, some (ConnectOutcome.connectionFailed serial))
    else
      ({ fw.1 with clients := setKey fw.1.clients serial true,
                   port_map := setKey fw.1.port_map serial localPort }, none)

end DeviceManager

/-- C5 counterexample: serial `"S"`, fresh manager (counter 28900), an ADB
world where the control-channel forward (local 28900) succeeds and the
binary-channel forward (local 28901) fails.  `connect` signals
device-offline, but the control forward is still installed and the port
counter stays at 28903: nothing is rolled back or released, contradicting
the claim. -/
theorem c5_counterexample :
    (DeviceManager.connect
      { control_port := 9008, binary_port := 9009, event_port := 9010,
        forwardOk := fun _ l _ => l == 28900, clientConnectOk := fun _ => true }
      {} "S").2 = some (ConnectOutcome.deviceOffline "S") ∧
    (DeviceManager.connect
      { control_port := 9008, binary_port := 9009, event_port := 9010,
        forwardOk := fun _ l _ => l == 28900, clientConnectOk := fun _ => true }
      {} "S").1.forwards = [("S", 28900)] ∧
    (DeviceManager.connect
      { control_port := 9008, binary_port := 9009, event_port := 9010,
        forwardOk := fun _ l _ => l == 28900, clientConnectOk := fun _ => true }
      {} "S").1.nextLocalPort = 28903 := by
  refine ⟨rfl, rfl, rfl⟩

/-- C5 amended: when the forward for the second (binary) channel fails
after the control forward succeeded, `connect` signals device-offline, but
the already-installed forward stays in place, the port counter stays
advanced by 3 (the block is not released) and the client and port maps are
untouched. -/
theorem c5_forward_failure_no_rollback (env : ConnectEnv) (st : ManagerState)
    (serial : String)
    (hnew : ((st.clients.find? (fun p => p.1 == serial)).map
      (fun p => p.2)).getD false = false)
    (h0 : env.forwardOk serial st.nextLocalPort env.control_port = true)
    (h1 : env.forwardOk serial (st.nextLocalPort + 1) env.binary_port = false) :
    DeviceManager.connect env st serial =
      ({ st with nextLocalPort := st.nextLocalPort + 3,
                 forwards := st.forwards ++ [(serial, st.nextLocalPort)] },
        some (ConnectOutcome.deviceOffline serial)) := by
  simp only [DeviceManager.connect, hnew, Bool.false_eq_true, if_false]
  simp [DeviceManager.installForwards, h0, h1]

/-- C5 witness for `c5_forward_failure_no_rollback` at the concrete world
of the counterexample's shape but a distinct serial and start state. -/
theorem c5_forward_failure_no_rollback_witness :
    DeviceManager.connect
      { control_port := 9008, binary_port := 9009, event_port := 9010,
        forwardOk := fun _ l _ => l == 29000, clientConnectOk := fun _ => true }
      { nextLocalPort := 29000 } "T" =
      ({ nextLocalPort := 29003, forwards := [("T", 29000)] },
        some (ConnectOutcome.deviceOffline "T")) :=
  c5_forward_failure_no_rollback _ _ "T" rfl rfl rfl

/-!  §4.I Parallel executor — `scheduler/executor.py`.  Wall-clock duration
is not modelled; a worker (`_run_device_worker`, including its
exception-to-error-results degradation) is abstracted as a function from a
device serial and its test slice to the result list it contributes. -/

/-- `ExecutionResult` from `scheduler/executor.py` (the fields the claims
observe). -/
structure ExecutionResultM where
  results : List TestResult := []
  device_count : Nat := 0
  error : Option String := none
  deriving DecidableEq, Repr

/-- `ExecutionResult.failed`. -/
def ExecutionResultM.failed (r : ExecutionResultM) : Nat :=
  (r.results.filter (fun x => x.status == TestStatus.failed)).length

/-- `ExecutionResult.is_success`: `self.failed == 0 and self.error is None`. -/
def ExecutionResultM.is_success (r : ExecutionResultM) : Bool :=
  r.failed == 0 && r.error.isNone

/-- The observable trace of one `execute` call: whether
`device_manager.connect_all()` was invoked, and the returned result. -/
structure ExecTrace where
  connectAllCalled : Bool
  result : ExecutionResultM
  deriving Repr

namespace ParallelExecutor

/-- `ParallelExecutor.execute`: `connect_all` runs unconditionally before
anything looks at `tests`; with no clients the call returns the
`"No devices available"` error result; otherwise the planner distributes
the tests and one worker runs per non-empty assignment (the freshly
connected clients make `get_client` succeed for every planned serial). -/
def execute (onlineSerials : List String)
    (runDevice : String → List TestCaseInfo → List TestResult)
    (tests : List TestCaseInfo) (strategy : String) : ExecTrace :=
  let clients := onlineSerials
  if clients.isEmpty then
    { connectAllCalled := true,
      result := { results := [], device_count := 0,
                  error := some "No devices available" } }
  else
    let plan := TestPlanner.plan tests clients strategy
    let tasks := plan.assignments.filter (fun p => !p.2.isEmpty)
    { connectAllCalled := true,
      result := { results := (tasks.map (fun p => runDevice p.1 p.2)).flatten,
                  device_count := clients.length, error := none } }

end ParallelExecutor

/-- With zero tests every device's assignment is empty, under every
strategy. -/
theorem plan_empty_tests (serials : List String) (strategy : String) :
    ∀ p ∈ (TestPlanner.plan [] serials strategy).assignments, p.2 = [] := by
  intro p hp
  by_cases hs : serials = []
  · simp [TestPlanner.plan, hs] at hp
  · simp only [TestPlanner.plan, hs, if_false] at hp
    by_cases h1 : strategy = "round_robin"
    · simp only [h1, if_true, TestPlanner.roundRobin, sortByPriorityDesc,
        List.insertionSort, TestPlanner.rrLoop] at hp
      obtain ⟨d, _, h⟩ := List.mem_map.mp hp
      simp [← h]
    · simp only [h1, if_false] at hp
      by_cases h2 : strategy = "capability_match"
      · simp only [h2, if_true, TestPlanner.capabilityMatch, List.foldl] at hp
        obtain ⟨d, _, h⟩ := List.mem_map.mp hp
        simp [← h]
      · simp only [h2, if_false] at hp
        by_cases h3 : strategy = "single_device"
        · simp only [h3, if_true, TestPlanner.singleDevice] at hp
          simp only [List.mem_singleton] at hp
          simp [hp]
        · simp only [h3, if_false] at hp
          by_cases h4 : strategy = "duplicate"
          · simp only [h4, if_true, TestPlanner.duplicateAll] at hp
            obtain ⟨d, _, h⟩ := List.mem_map.mp hp
            simp [← h]
          · simp only [h4, if_false, TestPlanner.roundRobin, sortByPriorityDesc,
              List.insertionSort, TestPlanner.rrLoop] at hp
            obtain ⟨d, _, h⟩ := List.mem_map.mp hp
            simp [← h]

/-- C4 counterexample: calling `execute` with an empty test list still
invokes `connect_all` — and when no device is available the result is the
`"No devices available"` error, not a success.  (With a device present
`connect_all` is still invoked.) -/
theorem c4_counterexample :
    (ParallelExecutor.execute [] (fun _ _ => []) [] "round_robin").connectAllCalled
      = true ∧
    (ParallelExecutor.execute [] (fun _ _ => []) [] "round_robin").result.error
      = some "No devices available" ∧
    (ParallelExecutor.execute [] (fun _ _ => []) [] "round_robin").result.is_success
      = false ∧
    (ParallelExecutor.execute ["A"] (fun _ _ => []) [] "round_robin").connectAllCalled
      = true := by
  refine ⟨rfl, rfl, rfl, rfl⟩

/-- C4 amended: `execute` always connects devices first (`connect_all` is
invoked even with zero tests); with zero tests it then returns an error
result when no device is available, and otherwise a successful result with
an empty result list and no worker output. -/
theorem c4_execute_empty_tests (onlineSerials : List String)
    (runDevice : String → List TestCaseInfo → List TestResult)
    (strategy : String) :
    (ParallelExecutor.execute onlineSerials runDevice [] strategy).connectAllCalled
      = true ∧
    (onlineSerials = [] →
      (ParallelExecutor.execute onlineSerials runDevice [] strategy).result.error
        = some "No devices available") ∧
    (onlineSerials ≠ [] →
      (ParallelExecutor.execute onlineSerials runDevice [] strategy).result =
        { results := [], device_count := onlineSerials.length, error := none } ∧
      (ParallelExecutor.execute onlineSerials runDevice [] strategy).result.is_success
        = true) := by
  refine ⟨?_, ?_, ?_⟩
  · by_cases h : onlineSerials.isEmpty <;> simp [ParallelExecutor.execute, h]
  · intro h
    simp [ParallelExecutor.execute, h]
  · intro h
    have hne : onlineSerials.isEmpty = false := by
      simpa [List.isEmpty_iff] using h
    have htasks : (TestPlanner.plan [] onlineSerials strategy).assignments.filter
        (fun p => !p.2.isEmpty) = [] := by
      rw [List.filter_eq_nil_iff]
      intro p hp
      simp [plan_empty_tests onlineSerials strategy p hp]
    constructor
    · simp [ParallelExecutor.execute, hne, htasks]
    · simp [ParallelExecutor.execute, hne, htasks,
        ExecutionResultM.is_success, ExecutionResultM.failed]

/-- C4 witness: `c4_execute_empty_tests` at one device, zero tests. -/
theorem c4_execute_empty_tests_witness :
    ["A"] ≠ ([] : List String) ∧
    (ParallelExecutor.execute ["A"] (fun _ _ => []) [] "duplicate").result.is_success
      = true :=
  ⟨by simp, ((c4_execute_empty_tests ["A"] (fun _ _ => []) "duplicate").2.2
    (by simp)).2⟩

/-!  §4.J OCR plugin — `plugins/builtin/ocr.py`.  Confidence values are
rationals (only compared, never rounded); recognised text and the search
target are character lists; the image type is abstract since `find_text`
only threads it through to the backend's `recognize`. -/

/-- `Rect` from `core/types.py`. -/
structure RectM where
  left : Int
  top : Int
  right : Int
  bottom : Int
  deriving DecidableEq, Repr

/-- `OcrResult` from `plugins/builtin/ocr.py`. -/
structure OcrResult where
  text : List Char
  bounds : RectM
  confidence : ℚ
  deriving DecidableEq, Repr

/-- Does `text` start with `target`? (helper for Python's `in`). -/
def strStartsWith : List Char → List Char → Bool
  | _, [] => true
  | [], _ :: _ => false
  | c :: cs, d :: ds => c == d && strStartsWith cs ds

/-- Python's `target in text` substring containment. -/
def strContainsSub : List Char → List Char → Bool
  | [], target => target.isEmpty
  | c :: rest, target => strStartsWith (c :: rest) target || strContainsSub rest target

/-- Descending-confidence order, the key of
`results.sort(key=lambda r: r.confidence, reverse=True)` (stable). -/
def confGe (a b : OcrResult) : Prop := b.confidence ≤ a.confidence

instance : DecidableRel confGe :=
  fun a b => inferInstanceAs (Decidable (b.confidence ≤ a.confidence))

instance : IsTotal OcrResult confGe :=
  ⟨fun a b => le_total b.confidence a.confidence⟩

instance : IsTrans OcrResult confGe :=
  ⟨fun _ _ _ h1 h2 => le_trans h2 h1⟩

namespace OcrBackend

/-- `OcrBackend.find_text`: recognise, keep results whose text contains the
target with confidence at least the threshold, in recognition order. -/
def find_text {Image : Type} (recognize : Image → List OcrResult)
    (image : Image) (target : List Char) (threshold : ℚ) : List OcrResult :=
  (recognize image).filter
    (fun r => strContainsSub r.text target && decide (threshold ≤ r.confidence))

end OcrBackend

namespace OcrPlugin

/-- `OcrPlugin.find_text`: no backend ⇒ empty; otherwise the backend's
filtered matches sorted by descending confidence. -/
def find_text {Image : Type} (backend : Option (Image → List OcrResult))
    (screenshot : Image) (target_text : List Char) (threshold : ℚ) :
    List OcrResult :=
  match backend with
  | none => []
  | some recognize =>
    List.insertionSort confGe
      (OcrBackend.find_text recognize screenshot target_text threshold)

end OcrPlugin

/-- C9 confirmed: with a backend installed, `OcrPlugin.find_text` returns
exactly the recognition results whose text contains the target and whose
confidence is at least the threshold (a permutation of that filtered
sublist), and the returned list is sorted by descending confidence. -/
theorem c9_find_text_filter_sorted (Image : Type)
    (recognize : Image → List OcrResult) (screenshot : Image)
    (target : List Char) (threshold : ℚ) :
    (OcrPlugin.find_text (some recognize) screenshot target threshold).Perm
      ((recognize screenshot).filter
        (fun r => strContainsSub r.text target && decide (threshold ≤ r.confidence))) ∧
    List.Sorted confGe (OcrPlugin.find_text (some recognize) screenshot target threshold) := by
  exact ⟨List.perm_insertionSort confGe _, List.sorted_insertionSort confGe _⟩

/-!  §4.F Test filter — `TestRunner.filter_tests` in
`automation/runner.py`.  Python aliasing is made explicit: the result is
the pair (the caller's `tests` list as it stands after the call, the
returned list).  When neither filter is truthy, `filtered` still aliases
`tests`, so the in-place `filtered.sort(...)` reorders the caller's list
and the returned list is that same object; otherwise a comprehension
produced a fresh list and the input is untouched. -/

/-- Python truthiness of the optional `tags` / `names` arguments
(`None` and `[]` are both falsy). -/
def truthyFilter : Option (List String) → Bool
  | none => false
  | some l => !l.isEmpty

namespace TestRunner

/-- `TestRunner.filter_tests` (see the section comment for the pair). -/
def filter_tests (tests : List TestCaseInfo)
    (tags : Option (List String)) (names : Option (List String)) :
    List TestCaseInfo × List TestCaseInfo :=
  let f1 := if truthyFilter tags then
      tests.filter (fun t => (tags.getD []).any (fun tag => t.tags.contains tag))
    else tests
  let f2 := if truthyFilter names then
      f1.filter (fun t => (names.getD []).contains t.name)
    else f1
  let sorted := sortByPriorityDesc f2
  (if truthyFilter tags || truthyFilter names then tests else sorted, sorted)

end TestRunner

/-- C10 confirmed: with no truthy tags and names, `filter_tests` reorders
the caller's list in place — after the call the input list is the
descending-priority permutation of what was passed, and the returned list
is that same list; with truthy tags or names the input list is left
unchanged. -/
theorem c10_filter_tests_aliasing (tests : List TestCaseInfo)
    (tags names : Option (List String)) :
    (truthyFilter tags = false → truthyFilter names = false →
      (TestRunner.filter_tests tests tags names).1 = sortByPriorityDesc tests ∧
      (TestRunner.filter_tests tests tags names).2 =
        (TestRunner.filter_tests tests tags names).1 ∧
      List.Sorted priorityGe (TestRunner.filter_tests tests tags names).1 ∧
      (TestRunner.filter_tests tests tags names).1.Perm tests) ∧
    (truthyFilter tags = true ∨ truthyFilter names = true →
      (TestRunner.filter_tests tests tags names).1 = tests) := by
  constructor
  · intro h1 h2
    refine ⟨by simp [TestRunner.filter_tests, h1, h2],
      by simp [TestRunner.filter_tests, h1, h2], ?_, ?_⟩
    · simpa [TestRunner.filter_tests, h1, h2, sortByPriorityDesc] using
        List.sorted_insertionSort priorityGe tests
    · simpa [TestRunner.filter_tests, h1, h2, sortByPriorityDesc] using
        List.perm_insertionSort priorityGe tests
  · intro h
    rcases h with h | h <;> simp [TestRunner.filter_tests, h]

/-- C10 witness: priorities `[0, 5]` get swapped in place when no filter is
given; with a tag filter the input order is untouched. -/
theorem c10_filter_tests_aliasing_witness :
    (TestRunner.filter_tests
        [{ name := "a", priority := 0 }, { name := "b", priority := 5 }]
        none none).1 =
      [{ name := "b", priority := 5 }, { name := "a", priority := 0 }] ∧
    (TestRunner.filter_tests
        [{ name := "a", priority := 0 }, { name := "b", priority := 5 }]
        (some ["smoke"]) none).1 =
      [{ name := "a", priority := 0 }, { name := "b", priority := 5 }] :=
  ⟨(((c10_filter_tests_aliasing
      [{ name := "a", priority := 0 }, { name := "b", priority := 5 }]
      none none).1 rfl rfl).1).trans (by decide),
   (c10_filter_tests_aliasing
      [{ name := "a", priority := 0 }, { name := "b", priority := 5 }]
      (some ["smoke"]) none).2 (Or.inl rfl)⟩
